import Mathlib

/-
Verification development for the ikflow repository (src/ikflow/model_loading.py
and src/train.py). Python strings are embedded as lists of characters, the
cache directory as an explicit set of file paths, and module-level
configuration (the MODELS_DIR constant from ikflow.config, the YAML-loaded
MODEL_DESCRIPTIONS registry, the external robot catalog) as explicit
parameters. Fallible Python code is embedded with an Except error channel
whose constructors mirror the Python exception classes that can actually be
raised.
-/

namespace IkflowVerification

/-- A Python string, embedded as its list of characters. -/
abbrev Str := List Char

/-- A primitive Python value as it appears in a registry entry or an attribute
dictionary. A float literal is carried as the pair (mantissa, decimal
exponent) it is written with, denoting mantissa times ten to the minus
exponent; no claim proved here performs float arithmetic, floats are only
stored and compared to the identical literal. -/
inductive PyValue where
  | int : Int → PyValue
  | str : Str → PyValue
  | bool : Bool → PyValue
  | float : Int → Nat → PyValue
deriving DecidableEq

/-- A Python dict with string keys, embedded as an association list in
insertion order (Python dicts preserve insertion order). -/
abbrev Dict := List (Str × PyValue)

/-- Lookup in an association list with string keys (first match). -/
def alistFind {α : Type} : List (Str × α) → Str → Option α
  | [], _ => none
  | (k0, v) :: d, k => if k0 = k then some v else alistFind d k

/-- Python dict item assignment `d[k] = v`: replaces the value in place when
the key is present (keeping insertion order), appends otherwise. -/
def dictSet : Dict → Str → PyValue → Dict
  | [], k, v => [(k, v)]
  | (k0, v0) :: d, k, v => if k0 = k then (k, v) :: d else (k0, v0) :: dictSet d k v

/-- Python `d.update(h)`: assigns every key of `h` into `d`, in order. -/
def dictUpdate (d h : Dict) : Dict :=
  h.foldl (fun acc p => dictSet acc p.1 p.2) d

/-- Membership test on a list of strings. -/
def strListHas : List Str → Str → Bool
  | [], _ => false
  | q :: r, p => if q = p then true else strListHas r p

/-- The Python exceptions the embedded code can raise. `modelResolutionError`
is the wrapper exception named by the spec (a model name together with the
originating cause); the source defines no such class and never raises it — the
constructor exists so that its absence from every error path is statable. -/
inductive PyError where
  | keyError : Str → PyError
  | assertionError : Str → PyError
  | attributeError : Str → PyError
  | valueError : Str → PyError
  | typeError : Str → PyError
  | modelResolutionError : Str → PyError → PyError
deriving DecidableEq

/-- Discriminator for the wrapper exception named by the spec. -/
def is_model_resolution_error : PyError → Bool
  | .modelResolutionError _ _ => true
  | _ => false

/-- The observable state of the cache directory: the set of file paths that
exist. Directory creation (safe_mkdir) only ensures the parent directory
exists and does not change which files exist, so it is not tracked. -/
structure FS where
  files : List Str
deriving DecidableEq

/-- Python os.path.isfile on the embedded file system. -/
def isfile (fs : FS) (p : Str) : Bool :=
  strListHas fs.files p

/-- Modelled from the spec: urllib.request.urlretrieve fetches the full
content of `url` into `filename` (the network fetch of §4.2). A successful
transfer is assumed; network failure is outside the claims proved here. -/
def urlretrieve (fs : FS) (url : Str) (filename : Str) : FS :=
  ⟨filename :: fs.files⟩

/-- Python `s.split(sep)` for a one-character separator: splits into the
(possibly empty) chunks between separator occurrences; never returns an empty
list. -/
def pySplit (sep : Char) : List Char → List (List Char)
  | [] => [[]]
  | c :: cs =>
    if c = sep then [] :: pySplit sep cs
    else
      match pySplit sep cs with
      | [] => [[c]]
      | g :: gs => (c :: g) :: gs

/-- model_filename from src/ikflow/model_loading.py: url.split on the slash
character, last element. -/
def model_filename (url : Str) : Str :=
  (pySplit '/' url).getLastD []

/-- The text after the last slash of a string, written from the words of the claim
itself ("text after the last '/'"), to be compared with model_filename. -/
def afterLastSlash : Str → Str
  | [] => []
  | c :: cs =>
    if '/' ∈ cs then afterLastSlash cs
    else if c = '/' then cs
    else c :: cs

/-- Python posixpath.join for two components. -/
def os_path_join (a b : Str) : Str :=
  if b.head? = some '/' then b
  else if a = [] ∨ a.getLast? = some '/' then a ++ b
  else a ++ '/' :: b

/-- Result of download_model: the returned path, the cache state after the
call, and how many network transfers the call performed. -/
structure DownloadResult where
  path : Str
  fs : FS
  transfers : Nat
deriving DecidableEq

/-- download_model from src/ikflow/model_loading.py. `models_dir_config` is
the module-level MODELS_DIR constant (ikflow.config, configuration made
explicit); a `none` download_dir defaults to it. safe_mkdir and the
directory assertion always succeed after the directory is created, so they
do not appear in the observable state. The transfers field counts
urlretrieve calls. -/
def download_model (models_dir_config : Str) (url : Str) (download_dir : Option Str)
    (fs : FS) : DownloadResult :=
  let dir := download_dir.getD models_dir_config
  let save_filepath := os_path_join dir (model_filename url)
  if isfile fs save_filepath then
    ⟨save_filepath, fs, 0⟩
  else
    ⟨save_filepath, urlretrieve fs url save_filepath, 1⟩

/-- Modelled from the spec: the declared fields and defaults of
IkflowModelParameters (ikflow/supporting_types.py, not under src/). The field
set is the one assigned in src/train.py and described by the hyperparameter
record of the spec; the default values are the DEFAULT constants of
src/train.py. -/
def ikflowDefaults : Dict :=
  [("coupling_layer".toList, .str "glow".toList),
   ("nb_nodes".toList, .int 6),
   ("dim_latent_space".toList, .int 8),
   ("coeff_fn_config".toList, .int 3),
   ("coeff_fn_internal_size".toList, .int 256),
   ("rnvp_clamp".toList, .float 25 1),
   ("softflow_noise_scale".toList, .float 1 3),
   ("softflow_enabled".toList, .bool true),
   ("y_noise_scale".toList, .float 1 7),
   ("zeros_noise_scale".toList, .float 1 3)]

/-- The declared field names of the hyperparameter record. -/
def declaredFields : List Str :=
  ikflowDefaults.map Prod.fst

/-- Hyperparameter reconstruction as performed by src/ikflow/model_loading.py
lines 65-66: a fresh IkflowModelParameters (all defaults) whose attribute
dictionary is then updated with the registry entry mapping. These lines
cannot raise, so the embedding is total. -/
def hyperReconstruct (fields : Dict) : Dict :=
  dictUpdate ikflowDefaults fields

/-- Modelled from the spec: the external robot catalog lookup
(jkinpylib.robots.get_robot, outside this repository): returns the robot for
a known name and raises for an unknown one. -/
def get_robot (catalog : List Str) (name : Str) : Except PyError Str :=
  if strListHas catalog name then .ok name else .error (.valueError name)

/-- The MODEL_DESCRIPTIONS registry: the YAML mapping from model name to its
entry dict, made an explicit parameter. -/
abbrev Registry := List (Str × Dict)

/-- The solver handle produced by resolution. IkflowSolver construction and
load_state_dict are opaque capabilities per the spec ("build from
hyperparameters", "load weights from a file"); the handle records what they
were given. -/
structure IkflowSolver where
  hyper_parameters : Dict
  robot : Str
  weights_filepath : Str
deriving DecidableEq

/-- get_ik_solver from src/ikflow/model_loading.py, with the module state
made explicit: `models_dir` is the MODELS_DIR constant, `registry` the loaded
MODEL_DESCRIPTIONS, `catalog` the external robot catalog, `fs` the cache
directory state. Mirrors the source line by line: two registry subscripts
that raise KeyError on a miss, the isinstance assertions, download_model
with the default directory, the isfile assertion, robot lookup,
hyperparameter reconstruction, solver construction. A non-string
model_weights_url makes urlretrieve raise TypeError, placed at the download
step. No exception handler exists anywhere in the function. -/
def get_ik_solver (models_dir : Str) (catalog : List Str) (registry : Registry)
    (fs : FS) (model_name : Str) : Except PyError (IkflowSolver × Dict × FS × Nat) :=
  match alistFind registry model_name with
  | none => .error (.keyError model_name)
  | some entry =>
    match alistFind entry "model_weights_url".toList with
    | none => .error (.keyError "model_weights_url".toList)
    | some urlValue =>
      match alistFind entry "robot_name".toList with
      | none => .error (.keyError "robot_name".toList)
      | some robotValue =>
        match robotValue with
        | .str robot_name =>
          match urlValue with
          | .str model_weights_url =>
            let r := download_model models_dir model_weights_url none fs
            if isfile r.fs r.path then
              match get_robot catalog robot_name with
              | .error e => .error e
              | .ok robot =>
                let hyper_parameters := hyperReconstruct entry
                .ok (⟨hyper_parameters, robot, r.path⟩, hyper_parameters, r.fs, r.transfers)
            else
              .error (.assertionError "weights file was not found".toList)
          | _ => .error (.typeError "urlretrieve expected a string url".toList)
        | _ => .error (.assertionError "robot_name must be a string".toList)

/-- The command line flags of src/train.py that the embedded fragments read.
Cadence periods are step counts (Nat), error thresholds and rates are
numeric flags (Rat). -/
structure TrainArgs where
  robot : Str
  test_description : Str
  model_type : Str
  smoke_test : Bool
  log_training_stats_every : Nat
  eval_every_k : Nat
  log_dist_plot_every : Nat
  save_if_mean_l2_error_below : Rat
  save_if_mean_angular_error_below : Rat
  n_epochs : Nat
  batch_size : Nat
  learning_rate : Rat
  gamma : Rat
  step_lr_every_k : Nat
deriving DecidableEq

/-- LoggingSettings as constructed in src/train.py (class declared in
utils.supporting_types, fields taken from the constructor calls). -/
structure LoggingSettings where
  wandb_enabled : Bool
  log_loss_every_k : Nat
  eval_every_k : Nat
  log_dist_plot_every : Nat
deriving DecidableEq

/-- EvaluationSettings as constructed in src/train.py. -/
structure EvaluationSettings where
  eval_enabled : Bool
  n_poses_per_evaluation : Nat
  n_samples_per_pose : Nat
deriving DecidableEq

/-- SaveSettings as constructed in src/train.py. -/
structure SaveSettings where
  save_model : Bool
  save_if_mean_l2_error_below : Rat
  save_if_mean_angular_error_below : Rat
deriving DecidableEq

/-- Modelled from the spec: the class defaults of the SaveSettings threshold
fields (utils.supporting_types, not under src/), used when the smoke branch
constructs SaveSettings with only save_model given. No claim constrains
their values. -/
def saveSettingsDefaultL2 : Rat := 0.1

/-- Modelled from the spec: default angular threshold of SaveSettings. -/
def saveSettingsDefaultAng : Rat := 3.141592

/-- The module-level SMOKE_TEST constant of src/train.py. -/
def SMOKE_TEST : Bool := false

/-- The run configuration builder of src/train.py lines 117-138: ors the
smoke flag into the module constant, then either substitutes the fixed small
cadence periods and disables saving (smoke branch) or takes cadences and
thresholds from the flags with saving enabled. Returns the effective smoke
flag with the three settings records. -/
def buildRunConfig (smoke_global : Bool) (args : TrainArgs) :
    Bool × LoggingSettings × EvaluationSettings × SaveSettings :=
  let smoke := smoke_global || args.smoke_test
  if smoke then
    (smoke,
     ⟨true, 50, 250, 100⟩,
     ⟨true, 50, 25⟩,
     ⟨false, saveSettingsDefaultL2, saveSettingsDefaultAng⟩)
  else
    (smoke,
     ⟨true, args.log_training_stats_every, args.eval_every_k, args.log_dist_plot_every⟩,
     ⟨true, 750, 250⟩,
     ⟨true, args.save_if_mean_l2_error_below, args.save_if_mean_angular_error_below⟩)

/-- The model_type string of the implemented variant. -/
def ikflowStr : Str := "ikflow".toList

/-- The model_type string of the unimplemented variant. -/
def mdnStr : Str := "mdn".toList

/-- The assertion message of src/train.py line 115. -/
def mdnUnimplementedMsg : Str := "Training with `mdn` is currently unimplemented".toList

/-- Observable events of the main sequence; none of them can occur before
the point where the embedded prefix stops. -/
inductive MainEvent where
  | modelBuilt
  | trainStarted
deriving DecidableEq

/-- The main sequence of src/train.py from the model_type assertions (lines
113-115) onward, in source order: membership assertion, the mdn
fail-fast assertion, run configuration building, robot lookup, then the
TrainingConfig field assignments. The assignment
`training_config.dataset_tag = args.dataset_tag` reads an attribute that no
parser.add_argument call defines, so every run that reaches that line raises
AttributeError there; model construction and training are unreachable, and
the event trace is always empty. -/
def mainSequence (catalog : List Str) (args : TrainArgs) :
    Except PyError Unit × List MainEvent :=
  if args.model_type = ikflowStr ∨ args.model_type = mdnStr then
    if args.model_type = mdnStr then
      (.error (.assertionError mdnUnimplementedMsg), [])
    else
      let _cfg := buildRunConfig SMOKE_TEST args
      match get_robot catalog args.robot with
      | .error e => (.error e, [])
      | .ok _robot_model =>
        (.error (.attributeError "dataset_tag".toList), [])
  else
    (.error (.assertionError "model_type not in list".toList), [])

/-- Value of a digit string, most significant digit first. -/
def digitsToNat (l : List Char) : Nat :=
  l.foldl (fun n c => 10 * n + (c.toNat - '0'.toNat)) 0

/-- Python int(s) on a string: strips surrounding spaces, accepts an optional
sign followed by at least one digit, and returns none (ValueError) otherwise.
Other whitespace kinds and digit-group underscores are not modelled; no
claim depends on them. -/
def pyInt? (s : Str) : Option Int :=
  let t := ((s.dropWhile (· = ' ')).reverse.dropWhile (· = ' ')).reverse
  match t with
  | [] => none
  | '+' :: ds => if ds ≠ [] ∧ ds.all Char.isDigit then some (digitsToNat ds) else none
  | '-' :: ds => if ds ≠ [] ∧ ds.all Char.isDigit then some (-(digitsToNat ds : Int)) else none
  | ds => if ds.all Char.isDigit then some (digitsToNat ds) else none

/-- The startup delay in seconds computed by src/train.py line 171:
time.sleep(5 * job_nb). -/
def startup_delay (job_nb : Int) : Int :=
  5 * job_nb

/-- Observable events of the staggering step: the performed sleep, or the
print that reports a missing job index. -/
inductive StagEvent where
  | slept : Int → StagEvent
  | printedMissing
deriving DecidableEq

/-- Python int(os.getenv("SLURM_ARRAY_TASK_ID")): TypeError when the
variable is absent (int of None), ValueError when it is present but not an
integer literal. -/
def pyIntOfEnv (env : Option Str) : Except PyError Int :=
  match env with
  | none => .error (.typeError "int argument must not be None".toList)
  | some s =>
    match pyInt? s with
    | none => .error (.valueError s)
    | some n => .ok n

/-- The staggering step of src/train.py lines 169-174: the try block
converts the environment variable and sleeps 5 * job_nb seconds; the except
clause catches exactly TypeError (absent variable), printing and continuing
with no sleep; every other exception escapes. A negative parsed index makes
time.sleep raise ValueError, also uncaught. Returns the delay slept together
with the event trace. -/
def staggerStep (env : Option Str) : Except PyError Int × List StagEvent :=
  match pyIntOfEnv env with
  | .ok n =>
    if startup_delay n < 0 then
      (.error (.valueError "sleep length must be non-negative".toList), [])
    else
      (.ok (startup_delay n), [.slept (startup_delay n)])
  | .error (.typeError _) => (.ok 0, [.printedMissing])
  | .error e => (.error e, [])

/-- Concrete registry for the end-to-end scenario: one entry named robot_x. -/
def robotXRegistry : Registry :=
  [("robot_x".toList,
    [("model_weights_url".toList, .str "https://host/robot_x-v1.bin".toList),
     ("robot_name".toList, .str "robot_x".toList),
     ("nb_nodes".toList, .int 6)])]

/-- Concrete cache directory for the end-to-end scenario. -/
def robotXCacheDir : Str := "/cache".toList

/-- The end-to-end resolution of the scenario, starting from an empty cache. -/
def robotXResolution : Except PyError (IkflowSolver × Dict × FS × Nat) :=
  get_ik_solver robotXCacheDir ["robot_x".toList] robotXRegistry ⟨[]⟩ "robot_x".toList

/-- The hyperparameter record of a successful resolution. -/
def resolutionHp : Except PyError (IkflowSolver × Dict × FS × Nat) → Dict
  | .ok (_, hp, _, _) => hp
  | .error _ => []

/-- The cache state of a successful resolution. -/
def resolutionFs : Except PyError (IkflowSolver × Dict × FS × Nat) → FS
  | .ok (_, _, fs, _) => fs
  | .error _ => ⟨[]⟩

/-- The number of network transfers of a successful resolution. -/
def resolutionTransfers : Except PyError (IkflowSolver × Dict × FS × Nat) → Nat
  | .ok (_, _, _, t) => t
  | .error _ => 0

/-- Concrete flags with the smoke-test flag set. -/
def argsSmoke : TrainArgs :=
  ⟨"panda_arm".toList, "t".toList, ikflowStr, true, 20000, 25000, 39062,
   0.1, 3.141592, 100, 64, 0.00025, 0.97, 39062⟩

/-- Concrete flags with the smoke-test flag unset. -/
def argsNoSmoke : TrainArgs :=
  ⟨"panda_arm".toList, "t".toList, ikflowStr, false, 20000, 25000, 39062,
   0.1, 3.141592, 100, 64, 0.00025, 0.97, 39062⟩

/-- Concrete flags selecting the unimplemented mdn variant. -/
def argsMdn : TrainArgs :=
  ⟨"panda_arm".toList, "t".toList, mdnStr, false, 20000, 25000, 39062,
   0.1, 3.141592, 100, 64, 0.00025, 0.97, 39062⟩

theorem pySplit_ne_nil (sep : Char) (s : List Char) : pySplit sep s ≠ [] := by
  cases s with
  | nil => simp [pySplit]
  | cons c cs =>
    unfold pySplit
    split
    · simp
    · split <;> simp

theorem pySplit_no_sep (sep : Char) (s : List Char) (h : sep ∉ s) :
    pySplit sep s = [s] := by
  induction s with
  | nil => rfl
  | cons c cs ih =>
    have hc : ¬ c = sep := by
      intro hh
      exact h (hh ▸ List.mem_cons_self c cs)
    have hcs : sep ∉ cs := fun hm => h (List.mem_cons_of_mem _ hm)
    unfold pySplit
    rw [if_neg hc, ih hcs]

theorem pySplit_length_of_mem (sep : Char) (s : List Char) (h : sep ∈ s) :
    2 ≤ (pySplit sep s).length := by
  induction s with
  | nil => cases h
  | cons c cs ih =>
    unfold pySplit
    by_cases hc : c = sep
    · rw [if_pos hc]
      have h1 : 0 < (pySplit sep cs).length :=
        List.length_pos.mpr (pySplit_ne_nil sep cs)
      simp only [List.length_cons]
      omega
    · rw [if_neg hc]
      have hm : sep ∈ cs := by
        cases h with
        | head => exact absurd rfl hc
        | tail _ hh => exact hh
      have h2 := ih hm
      cases hps : pySplit sep cs with
      | nil => exact absurd hps (pySplit_ne_nil sep cs)
      | cons g gs =>
        rw [hps] at h2
        simp only [List.length_cons] at h2 ⊢
        omega

theorem getLastD_indep {α : Type} (l : List α) (a b : α) (h : l ≠ []) :
    l.getLastD a = l.getLastD b := by
  rw [List.getLastD_eq_getLast?, List.getLastD_eq_getLast?]
  cases hl : l.getLast? with
  | none =>
    rw [List.getLast?_eq_none_iff] at hl
    exact absurd hl h
  | some y => rfl

theorem pySplit_cons (sep c : Char) (cs : List Char) :
    pySplit sep (c :: cs)
      = if c = sep then [] :: pySplit sep cs
        else match pySplit sep cs with
          | [] => [[c]]
          | g :: gs => (c :: g) :: gs := rfl

theorem afterLastSlash_cons (c : Char) (cs : List Char) :
    afterLastSlash (c :: cs)
      = if '/' ∈ cs then afterLastSlash cs
        else if c = '/' then cs else c :: cs := rfl

theorem model_filename_eq_afterLastSlash (s : Str) :
    model_filename s = afterLastSlash s := by
  induction s with
  | nil => rfl
  | cons c cs ih =>
    unfold model_filename at ih ⊢
    by_cases hc : c = '/'
    · by_cases hm : '/' ∈ cs
      · rw [pySplit_cons, if_pos hc, List.getLastD_cons, afterLastSlash_cons, if_pos hm]
        exact ih
      · rw [pySplit_cons, if_pos hc, List.getLastD_cons, pySplit_no_sep '/' cs hm,
          List.getLastD_cons, List.getLastD_nil, afterLastSlash_cons, if_neg hm, if_pos hc]
    · by_cases hm : '/' ∈ cs
      · obtain ⟨g, gs, hps⟩ : ∃ g gs, pySplit '/' cs = g :: gs := by
          cases hps : pySplit '/' cs with
          | nil => exact absurd hps (pySplit_ne_nil '/' cs)
          | cons g gs => exact ⟨g, gs, rfl⟩
        have hgs : gs ≠ [] := by
          intro hnil
          have h2 := pySplit_length_of_mem '/' cs hm
          rw [hps, hnil] at h2
          simp at h2
        rw [pySplit_cons, if_neg hc, hps]
        show ((c :: g) :: gs).getLastD [] = afterLastSlash (c :: cs)
        rw [afterLastSlash_cons, if_pos hm, List.getLastD_cons]
        rw [hps, List.getLastD_cons] at ih
        rw [← ih]
        exact getLastD_indep gs (c :: g) g hgs
      · rw [pySplit_cons, if_neg hc, pySplit_no_sep '/' cs hm]
        show ([c :: cs]).getLastD [] = afterLastSlash (c :: cs)
        rw [List.getLastD_cons, List.getLastD_nil, afterLastSlash_cons, if_neg hm, if_neg hc]

theorem download_model_path_eq (models_dir url : Str) (dd : Option Str) (fs : FS) :
    (download_model models_dir url dd fs).path
      = os_path_join (dd.getD models_dir) (model_filename url) := by
  unfold download_model
  dsimp only
  split <;> rfl

theorem dictSet_find_self (d : Dict) (k : Str) (v : PyValue) :
    alistFind (dictSet d k v) k = some v := by
  induction d with
  | nil => simp [dictSet, alistFind]
  | cons p d ih =>
    obtain ⟨k0, v0⟩ := p
    unfold dictSet
    by_cases h : k0 = k
    · rw [if_pos h]
      simp [alistFind]
    · rw [if_neg h]
      unfold alistFind
      rw [if_neg h]
      exact ih

theorem dictSet_find_other (d : Dict) (k : Str) (v : PyValue) (k1 : Str) (h : k1 ≠ k) :
    alistFind (dictSet d k v) k1 = alistFind d k1 := by
  induction d with
  | nil =>
    unfold dictSet alistFind
    rw [if_neg (fun hh => h hh.symm)]
    rfl
  | cons p d ih =>
    obtain ⟨k0, v0⟩ := p
    unfold dictSet
    by_cases h0 : k0 = k
    · rw [if_pos h0]
      unfold alistFind
      rw [if_neg (fun hh => h hh.symm), if_neg (fun hh => h ((h0.symm.trans hh).symm))]
    · rw [if_neg h0]
      unfold alistFind
      by_cases h1 : k0 = k1
      · rw [if_pos h1, if_pos h1]
      · rw [if_neg h1, if_neg h1]
        exact ih

theorem dictUpdate_find_not_mem (h : Dict) (k : Str) (hk : ∀ p ∈ h, p.1 ≠ k) (d : Dict) :
    alistFind (dictUpdate d h) k = alistFind d k := by
  induction h generalizing d with
  | nil => rfl
  | cons p t ih =>
    obtain ⟨k1, v1⟩ := p
    have h1 : k1 ≠ k := hk (k1, v1) (List.mem_cons_self _ _)
    have step : dictUpdate d ((k1, v1) :: t) = dictUpdate (dictSet d k1 v1) t := rfl
    rw [step, ih (fun p hp => hk p (List.mem_cons_of_mem _ hp)) (dictSet d k1 v1)]
    exact dictSet_find_other d k1 v1 k (Ne.symm h1)

theorem dictUpdate_find_of_find (h : Dict) (k : Str) (v : PyValue)
    (hnd : (h.map Prod.fst).Nodup) (hf : alistFind h k = some v) (d : Dict) :
    alistFind (dictUpdate d h) k = some v := by
  induction h generalizing d with
  | nil => simp [alistFind] at hf
  | cons p t ih =>
    obtain ⟨k1, v1⟩ := p
    rw [List.map_cons, List.nodup_cons] at hnd
    obtain ⟨hnotin, hndt⟩ := hnd
    have step : dictUpdate d ((k1, v1) :: t) = dictUpdate (dictSet d k1 v1) t := rfl
    by_cases hk : k1 = k
    · subst hk
      unfold alistFind at hf
      rw [if_pos rfl] at hf
      injection hf with hf
      subst hf
      have htk : ∀ p ∈ t, p.1 ≠ k1 := by
        intro p hp hpk
        have hmem : p.1 ∈ t.map Prod.fst := List.mem_map_of_mem Prod.fst hp
        rw [hpk] at hmem
        exact hnotin hmem
      rw [step, dictUpdate_find_not_mem t k1 htk (dictSet d k1 v1)]
      exact dictSet_find_self d k1 v1
    · unfold alistFind at hf
      rw [if_neg hk] at hf
      rw [step]
      exact ih hndt hf (dictSet d k1 v1)

/-- C1: artifact cache resolution is idempotent. If the derived local file
path already exists, download_model returns that path immediately with the
cache unchanged and zero network transfers; and for any starting cache
state, two successive calls for the same url and cache directory perform at
most one transfer in total and the second call returns the identical local
path. -/
theorem download_model_cache_idempotent (models_dir url dir : Str) (fs : FS)
    (h : isfile fs (os_path_join dir (model_filename url)) = true) :
    download_model models_dir url (some dir) fs
      = ⟨os_path_join dir (model_filename url), fs, 0⟩ ∧
    ∀ fs0 : FS,
      (download_model models_dir url (some dir) fs0).transfers
          + (download_model models_dir url (some dir)
              (download_model models_dir url (some dir) fs0).fs).transfers ≤ 1 ∧
      (download_model models_dir url (some dir)
          (download_model models_dir url (some dir) fs0).fs).path
        = (download_model models_dir url (some dir) fs0).path := by
  constructor
  · simp [download_model, h]
  · intro fs0
    by_cases h0 : isfile fs0 (os_path_join dir (model_filename url)) = true
    · simp [download_model, h0]
    · have h0f : isfile fs0 (os_path_join dir (model_filename url)) = false :=
        Bool.eq_false_iff.mpr h0
      have hafter :
          isfile (urlretrieve fs0 url (os_path_join dir (model_filename url)))
            (os_path_join dir (model_filename url)) = true := by
        simp [urlretrieve, isfile, strListHas]
      simp [download_model, h0f, hafter]

/-- C1 witness: with the file already cached, the call returns the cached
path with no transfer. -/
theorem download_model_cache_idempotent_witness :
    download_model "/m".toList "http://h/w.bin".toList (some "/c".toList)
        ⟨["/c/w.bin".toList]⟩
      = ⟨os_path_join "/c".toList (model_filename "http://h/w.bin".toList),
         ⟨["/c/w.bin".toList]⟩, 0⟩ :=
  (download_model_cache_idempotent "/m".toList "http://h/w.bin".toList "/c".toList
      ⟨["/c/w.bin".toList]⟩ (by decide)).1

/-- C5: two distinct source urls whose final path segments (the text after
the last slash) are equal derive the same cache filename, hence the same
cache entry path under a given cache directory, and download_model resolves
both to that same path. -/
theorem shared_final_segment_same_cache_entry (u1 u2 dir models_dir : Str) (fs : FS)
    (hne : u1 ≠ u2) (hseg : afterLastSlash u1 = afterLastSlash u2) :
    model_filename u1 = model_filename u2 ∧
    os_path_join dir (model_filename u1) = os_path_join dir (model_filename u2) ∧
    (download_model models_dir u1 (some dir) fs).path
      = (download_model models_dir u2 (some dir) fs).path := by
  have hm : model_filename u1 = model_filename u2 := by
    rw [model_filename_eq_afterLastSlash, model_filename_eq_afterLastSlash, hseg]
  refine ⟨hm, by rw [hm], ?_⟩
  rw [download_model_path_eq, download_model_path_eq, hm]

/-- C5 witness: two distinct hosts serving the same filename collide. -/
theorem shared_final_segment_same_cache_entry_witness :
    model_filename "https://a/m.bin".toList = model_filename "https://b/m.bin".toList ∧
    os_path_join "/c".toList (model_filename "https://a/m.bin".toList)
      = os_path_join "/c".toList (model_filename "https://b/m.bin".toList) ∧
    (download_model "/m".toList "https://a/m.bin".toList (some "/c".toList) ⟨[]⟩).path
      = (download_model "/m".toList "https://b/m.bin".toList (some "/c".toList) ⟨[]⟩).path :=
  shared_final_segment_same_cache_entry "https://a/m.bin".toList "https://b/m.bin".toList
    "/c".toList "/m".toList ⟨[]⟩ (by decide) (by decide)

/-- C8: the staggering delay 5 * job_nb is monotonically non-decreasing in
the job index, and an absent job-index environment variable is tolerated:
the step succeeds with zero delay after printing the missing-index
message. -/
theorem startup_delay_monotone_absent_tolerated :
    (∀ i j : Int, i ≤ j → startup_delay i ≤ startup_delay j) ∧
    staggerStep none = (.ok 0, [.printedMissing]) := by
  constructor
  · intro i j hij
    unfold startup_delay
    exact mul_le_mul_of_nonneg_left hij (by norm_num)
  · rfl

/-- C8 witness: monotone at 2 and 7, and the absent variable yields zero
delay. -/
theorem startup_delay_monotone_absent_tolerated_witness :
    startup_delay 2 ≤ startup_delay 7 ∧
    staggerStep none = (.ok 0, [.printedMissing]) :=
  ⟨startup_delay_monotone_absent_tolerated.1 2 7 (by norm_num),
   startup_delay_monotone_absent_tolerated.2⟩

/-- C9: a model name with no registry entry makes get_ik_solver fail
immediately with the lookup-miss exception (Python KeyError, the realization
of the NotFoundError of the spec) naming that model. -/
theorem registry_miss_raises_key_error (models_dir : Str) (catalog : List Str)
    (registry : Registry) (fs : FS) (model_name : Str)
    (h : alistFind registry model_name = none) :
    get_ik_solver models_dir catalog registry fs model_name
      = .error (.keyError model_name) := by
  unfold get_ik_solver
  rw [h]

/-- C9 witness: resolution of a name absent from an empty registry. -/
theorem registry_miss_raises_key_error_witness :
    get_ik_solver "/m".toList [] [] ⟨[]⟩ "nope".toList
      = .error (.keyError "nope".toList) :=
  registry_miss_raises_key_error "/m".toList [] [] ⟨[]⟩ "nope".toList rfl

/-- C10: when the job-index variable is present but holds a non-integer
string, the int conversion raises ValueError, which the handler (catching
only TypeError) does not intercept: the staggering step ends in an uncaught
error with no sleep performed. -/
theorem nonint_job_index_uncaught_value_error (s : Str) (h : pyInt? s = none) :
    staggerStep (some s) = (.error (.valueError s), []) := by
  have hp : pyIntOfEnv (some s) = .error (.valueError s) := by
    show (match pyInt? s with
          | none => (Except.error (PyError.valueError s) : Except PyError Int)
          | some n => Except.ok n) = Except.error (.valueError s)
    rw [h]
  unfold staggerStep
  rw [hp]

/-- C10 witness: the literal string abc is not an integer and aborts the
step. -/
theorem nonint_job_index_uncaught_value_error_witness :
    staggerStep (some "abc".toList) = (.error (.valueError "abc".toList), []) :=
  nonint_job_index_uncaught_value_error "abc".toList (by decide)

/-- C6: with the smoke-test flag set, the run configuration builder
substitutes the fixed small cadence periods (50, 250, 100, replacing the
flag-supplied logging and evaluation periods) and disables persistent model
saving; with it unset, the cadence periods and save thresholds come from the
run flags with saving enabled. -/
theorem run_config_smoke_override (args : TrainArgs) :
    (args.smoke_test = true →
      (buildRunConfig SMOKE_TEST args).2.1 = ⟨true, 50, 250, 100⟩ ∧
      (buildRunConfig SMOKE_TEST args).2.2.2.save_model = false) ∧
    (args.smoke_test = false →
      (buildRunConfig SMOKE_TEST args).2.1
        = ⟨true, args.log_training_stats_every, args.eval_every_k,
           args.log_dist_plot_every⟩ ∧
      (buildRunConfig SMOKE_TEST args).2.2.2
        = ⟨true, args.save_if_mean_l2_error_below,
           args.save_if_mean_angular_error_below⟩) := by
  constructor <;> intro h <;> simp [buildRunConfig, SMOKE_TEST, h]

/-- C6 witness: both branches at concrete flag records. -/
theorem run_config_smoke_override_witness :
    ((buildRunConfig SMOKE_TEST argsSmoke).2.1 = ⟨true, 50, 250, 100⟩ ∧
     (buildRunConfig SMOKE_TEST argsSmoke).2.2.2.save_model = false) ∧
    ((buildRunConfig SMOKE_TEST argsNoSmoke).2.1
        = ⟨true, argsNoSmoke.log_training_stats_every, argsNoSmoke.eval_every_k,
           argsNoSmoke.log_dist_plot_every⟩ ∧
     (buildRunConfig SMOKE_TEST argsNoSmoke).2.2.2
        = ⟨true, argsNoSmoke.save_if_mean_l2_error_below,
           argsNoSmoke.save_if_mean_angular_error_below⟩) :=
  ⟨(run_config_smoke_override argsSmoke).1 rfl,
   (run_config_smoke_override argsNoSmoke).2 rfl⟩

/-- C7: a run started with model_type mdn fails at the fail-fast assertion
with the not-implemented message, before any model is built or any training
work begins (the result is the assertion error and the event trace is
empty), and never proceeds as the ikflow variant. -/
theorem mdn_model_type_fails_fast (catalog : List Str) (args : TrainArgs)
    (h : args.model_type = mdnStr) :
    mainSequence catalog args = (.error (.assertionError mdnUnimplementedMsg), []) := by
  unfold mainSequence
  rw [if_pos (Or.inr h), if_pos h]

/-- C7 witness: concrete mdn flags abort with the unimplemented message. -/
theorem mdn_model_type_fails_fast_witness :
    mainSequence [] argsMdn = (.error (.assertionError mdnUnimplementedMsg), []) :=
  mdn_model_type_fails_fast [] argsMdn rfl

/-- C2 counterexample: a field name not declared on the hyperparameter
record does not raise anything — reconstruction is a total dict update that
silently assigns the unknown field onto the record, contradicting the
claimed ValidationError. -/
theorem unknown_field_silently_assigned :
    alistFind (hyperReconstruct [("mystery_field".toList, PyValue.int 7)])
        "mystery_field".toList = some (PyValue.int 7) ∧
    strListHas declaredFields "mystery_field".toList = false := by
  decide

/-- C2 amended: hyperparameter reconstruction never fails; every field of
the mapping, declared or unknown, is assigned onto the record by the dict
update (for a mapping with unique keys, the reconstructed record holds
exactly the given value at every given field, unknown ones included). -/
theorem hyper_reconstruction_assigns_every_field (fields : Dict) (k : Str) (v : PyValue)
    (hnd : (fields.map Prod.fst).Nodup) (hf : alistFind fields k = some v) :
    alistFind (hyperReconstruct fields) k = some v :=
  dictUpdate_find_of_find fields k v hnd hf ikflowDefaults

/-- C2 amended witness: the unknown mystery field is assigned through. -/
theorem hyper_reconstruction_assigns_every_field_witness :
    alistFind (hyperReconstruct [("mystery_field".toList, PyValue.int 7)])
        "mystery_field".toList = some (PyValue.int 7) :=
  hyper_reconstruction_assigns_every_field [("mystery_field".toList, PyValue.int 7)]
    "mystery_field".toList (PyValue.int 7) (by decide) (by decide)

/-- C3: for the registry entry robot_x with url https://host/robot_x-v1.bin
and nb_nodes 6, end-to-end resolution against an empty cache succeeds,
fetches exactly one artifact, leaves the file at /cache/robot_x-v1.bin, and
yields a hyperparameter record whose nb_nodes is 6 and whose every other
declared field holds its default value. -/
theorem end_to_end_robot_x_resolution :
    robotXResolution.isOk = true ∧
    isfile (resolutionFs robotXResolution)
        (os_path_join robotXCacheDir "robot_x-v1.bin".toList) = true ∧
    resolutionTransfers robotXResolution = 1 ∧
    alistFind (resolutionHp robotXResolution) "nb_nodes".toList
      = some (PyValue.int 6) ∧
    ∀ f ∈ declaredFields, f ≠ "nb_nodes".toList →
      alistFind (resolutionHp robotXResolution) f = alistFind ikflowDefaults f := by
  decide

/-- C3 witness: the coupling_layer field of the resolved record holds its
default value. -/
theorem end_to_end_robot_x_resolution_witness :
    alistFind (resolutionHp robotXResolution) "coupling_layer".toList
      = alistFind ikflowDefaults "coupling_layer".toList :=
  end_to_end_robot_x_resolution.2.2.2.2 "coupling_layer".toList (by decide) (by decide)

/-- C4 counterexample: a failing step (registry miss for robot_y) propagates
out of get_ik_solver as the raw KeyError, not as a ModelResolutionError
wrapping the cause. -/
theorem registry_miss_not_wrapped :
    get_ik_solver "/cache".toList [] [] ⟨[]⟩ "robot_y".toList
      = .error (.keyError "robot_y".toList) ∧
    is_model_resolution_error (.keyError "robot_y".toList) = false :=
  ⟨rfl, rfl⟩

theorem get_robot_error_shape (catalog : List Str) (name : Str) (e : PyError)
    (h : get_robot catalog name = .error e) : e = .valueError name := by
  unfold get_robot at h
  split at h
  · cases h
  · injection h with h2
    exact h2.symm

/-- C4 amended: get_ik_solver installs no handler, so any failing step
propagates as its originating raw exception; no error it returns is ever a
ModelResolutionError. -/
theorem get_ik_solver_never_wraps (models_dir : Str) (catalog : List Str)
    (registry : Registry) (fs : FS) (model_name : Str) (e : PyError)
    (h : get_ik_solver models_dir catalog registry fs model_name = .error e) :
    is_model_resolution_error e = false := by
  unfold get_ik_solver at h
  split at h
  · injection h with h2
    subst h2
    rfl
  · split at h
    · injection h with h2
      subst h2
      rfl
    · split at h
      · injection h with h2
        subst h2
        rfl
      · split at h
        · dsimp only at h
          split at h
          · split at h
            · split at h
              · case _ e2 heq =>
                  injection h with h2
                  subst h2
                  rw [get_robot_error_shape _ _ _ heq]
                  rfl
              · cases h
            · injection h with h2
              subst h2
              rfl
          · injection h with h2
            subst h2
            rfl
        · injection h with h2
          subst h2
          rfl

/-- C4 amended witness: the registry-miss error is unwrapped. -/
theorem get_ik_solver_never_wraps_witness :
    is_model_resolution_error (.keyError "robot_z".toList) = false :=
  get_ik_solver_never_wraps "/cache".toList [] [] ⟨[]⟩ "robot_z".toList
    (.keyError "robot_z".toList) rfl

end IkflowVerification
